import Mathlib

set_option linter.unusedVariables false
set_option linter.unnecessarySeqFocus false

/-!
Shallow embedding of the Neteria UDP client/server engine
(src/neteria/core.py, src/neteria/server.py, src/neteria/client.py,
src/neteria/encryption.py).

Python dicts are modelled as association lists; the engine-level maps
(registry, event_uuids, encrypted_hosts, the client buffers) are keyed by
the string identifiers of the wire format (spec section 6).  The external
primitives (json, zlib, rsa) are modelled algebraically by the Wire type:
each encode stage is a constructor and each decode stage is its partial
inverse, which is exactly the contract the spec assigns to the
out-of-scope collaborators.  Exceptions that the Python code can raise are
made explicit (PyErr); the listener's receive_datagram catches them all,
which is modelled by the ReceiveDatagram wrappers.
-/

/-! Association-list maps mirroring Python dict operations: lookup,
`d[k] = v` (replace or append), `del d[k]`, and `k in d`. -/

def alookup {κ α : Type} [DecidableEq κ] (k : κ) : List (κ × α) → Option α
  | [] => none
  | (k', v) :: t => if k = k' then some v else alookup k t

def ainsert {κ α : Type} [DecidableEq κ] (k : κ) (v : α) : List (κ × α) → List (κ × α)
  | [] => [(k, v)]
  | (k', v') :: t => if k = k' then (k, v) :: t else (k', v') :: ainsert k v t

def aerase {κ α : Type} [DecidableEq κ] (k : κ) : List (κ × α) → List (κ × α)
  | [] => []
  | (k', v') :: t => if k = k' then t else (k', v') :: aerase k t

def acontains {κ α : Type} [DecidableEq κ] (k : κ) (l : List (κ × α)) : Bool :=
  (alookup k l).isSome

/-! JSON-representable Python values and Python truthiness. -/

inductive Value where
  | vnull : Value
  | vbool : Bool → Value
  | vint : Int → Value
  | vstr : String → Value
  | varr : List Value → Value
  | vobj : List (String × Value) → Value

/-- Python truthiness of a decoded value (`if not msg_data: ...`). -/
def vtruthy : Value → Bool
  | .vnull => false
  | .vbool b => b
  | .vint i => i != 0
  | .vstr s => !s.isEmpty
  | .varr l => !l.isEmpty
  | .vobj l => !l.isEmpty

/-- Exceptions the modelled code can raise. -/
inductive PyErr where
  | keyError : PyErr
  | typeError : PyErr
deriving DecidableEq

/-- Python subscript `v[k]`: KeyError for a mapping without the key,
TypeError for a non-mapping. -/
def pyGet (v : Value) (k : String) : Except PyErr Value :=
  match v with
  | .vobj l =>
    match alookup k l with
    | some x => .ok x
    | none => .error .keyError
  | _ => .error .typeError

/-- Identifier fields of the wire format are strings (spec section 6). -/
def asStr : Value → Except PyErr String
  | .vstr s => .ok s
  | _ => .error .typeError

def getStr (v : Value) (k : String) : Except PyErr String := do
  let x ← pyGet v k
  asStr x

/-! Codec (core.py lines 43-118).  The byte-level stages performed by the
external json/zlib/rsa libraries are modelled algebraically: `Wire.plain`
is `json.dumps`, `Wire.compressed` is `b2a_base64(zlib.compress(.))`, and
`Wire.encrypted` is `Encryption.encrypt` under a public key.  Each decode
primitive is the partial inverse, failing (raising) on any other shape. -/

abbrev PubKey := Int × Int

structure Keypair where
  pub : PubKey
deriving DecidableEq

inductive Wire where
  | plain : Value → Wire
  | compressed : Wire → Wire
  | encrypted : Wire → PubKey → Wire

/-- json.loads: succeeds only on the output of json.dumps. -/
def jsonLoads : Wire → Option Value
  | .plain v => some v
  | _ => none

/-- zlib.decompress(a2b_base64 data): succeeds only on compressed data. -/
def zlibInflate : Wire → Option Wire
  | .compressed w => some w
  | _ => none

/-- Encryption.decrypt (encryption.py lines 90-120) with the instance's
private key: succeeds only on data encrypted under the paired public key. -/
def decrypt (kp : Keypair) : Wire → Option Wire
  | .encrypted w k => if k = kp.pub then some w else none
  | _ => none

/-- serialize_data (core.py lines 43-75): json-dump, optionally compress,
then encrypt when an encryption instance and a peer public key are both
present. -/
def serialize_data (data : Value) (compression : Bool) (encryption : Bool)
    (public_key : Option PubKey) : Wire :=
  let message := Wire.plain data
  let message := if compression then Wire.compressed message else message
  match encryption, public_key with
  | true, some k => Wire.encrypted message k
  | _, _ => message

/-- What `return message` at core.py line 118 produces: a parsed value, the
decode-failure sentinel False, the UnboundLocalError raised when the local
`message` was never assigned, or the uncaught error of the final
json.loads. -/
inductive UResult where
  | val : Value → UResult
  | fals : UResult
  | unboundLocal : UResult
  | raised : UResult

/-- unserialize_data (core.py lines 77-118), with Python's local-variable
semantics made explicit: `none` for the local `message` means it is still
unbound.  The first try/except decrypts (on failure `message = False` and
`data` is left untouched); the second try/except inflates and parses when
compression is on; the final json.loads runs, outside any try, only when
both flags are off. -/
def unserialize_data (data : Wire) (compression : Bool)
    (encryption : Option Keypair) : UResult :=
  let step1 : Wire × Option (Option Value) :=
    match encryption with
    | some kp =>
      match decrypt kp data with
      | some d => (d, none)
      | none => (data, some none)
    | none => (data, none)
  let data1 := step1.1
  let msg2 : Option (Option Value) :=
    if compression then
      match zlibInflate data1 with
      | some w => some (jsonLoads w)
      | none => some none
    else step1.2
  if encryption.isNone && !compression then
    match jsonLoads data1 with
    | some v => .val v
    | none => .raised
  else
    match msg2 with
    | some (some v) => .val v
    | some none => .fals
    | none => .unboundLocal

/-! Server engine (server.py). -/

abbrev Addr := String × Int

/-- A registry entry (server.py line 350): the dict
`{"host": .., "port": .., "time": ..}` plus the optional "encryption" key
added at line 359; no other key is ever written to an entry. -/
structure RegEntry where
  host : String
  port : Int
  time : Nat
  encryption : Option PubKey
deriving DecidableEq

/-- Structured server-to-client payloads, before serialize_data. -/
inductive SMsg where
  | ohaiClient : String → Option String → SMsg
  | byeRegister : SMsg
  | okRegister : Option PubKey → SMsg
  | byeEvent : SMsg
  | legal : String → String → SMsg
  | illegal : String → String → SMsg
  | notifyMsg : String → Value → SMsg

/-- The record `{"cuuid": x, "euuid": y, "response": z}` handed to the
server's scheduled retransmit callback (server.py lines 509-511, 585-588). -/
structure RetransmitData where
  cuuid : String
  euuid : String
  response : SMsg

structure ServerState where
  version : String
  allowed_versions : List String
  server_name : Option String
  event_uuids : List (String × Nat)
  encrypted_hosts : List (Addr × String)
  registry : List (String × RegEntry)
  encryption : Option PubKey
  max_retries : Nat
  registration_limit : Nat

/-- Result of one server handler: the value returned to the listener, the
state afterwards, the call_later records, the middleware invocations, and
the exception if one escaped (st is then the state at the raise point). -/
structure SrvOut where
  resp : Option SMsg
  st : ServerState
  scheds : List RetransmitData
  legalCalls : List (String × String × Value)
  execCalls : List (String × String × Value)
  err : Option PyErr

/-- is_registered (server.py lines 390-409): the cuuid is a registry key
and the stored host equals the source IP. -/
def is_registered (s : ServerState) (cuuid : String) (host : String) : Bool :=
  match alookup cuuid s.registry with
  | some e => e.host == host
  | none => false

/-- The fields of a REGISTER message that register reads: the cuuid and
the optional key parameters [n, e]. -/
structure RegisterMsg where
  cuuid : String
  encryption : Option PubKey

/-- The dict-merge loop `for key in data: self.registry[cuuid][key] = data[key]`
(server.py lines 372-373): data always carries host, port and time, and
carries encryption exactly when new.encryption is some. -/
def mergeEntry (old new : RegEntry) : RegEntry :=
  { host := new.host, port := new.port, time := new.time,
    encryption :=
      match new.encryption with
      | some k => some k
      | none => old.encryption }

/-- register (server.py lines 318-387).  now stands for datetime.now(). -/
def srvRegister (s : ServerState) (now : Nat) (m : RegisterMsg) (host : Addr) :
    SMsg × ServerState :=
  if s.registry.length > s.registration_limit then
    (.byeRegister, s)
  else
    let data0 : RegEntry := { host := host.1, port := host.2, time := now, encryption := none }
    let step :=
      match m.encryption, s.encryption with
      | some k, some se =>
        ({ data0 with encryption := some k },
         ainsert host m.cuuid s.encrypted_hosts,
         SMsg.okRegister (some se))
      | some _, none => (data0, s.encrypted_hosts, SMsg.okRegister none)
      | none, _ => (data0, s.encrypted_hosts, SMsg.okRegister none)
    let registry' :=
      match alookup m.cuuid s.registry with
      | some old => ainsert m.cuuid (mergeEntry old step.1) s.registry
      | none => ainsert m.cuuid step.1 s.registry
    (step.2.2, { s with registry := registry', encrypted_hosts := step.2.1 })

/-- event (server.py lines 412-513).  The middleware's event_legal is the
caller-supplied pure policy hook (tools.py); event_execute invocations are
recorded in execCalls (the thread started at line 493).  The client-key
lookup at line 441 raises KeyError when the source is marked encrypted but
the registry lacks the cuuid or a stored key. -/
def srvEvent (hook : String → String → Value → Bool) (s : ServerState)
    (cuuid : String) (host : Addr) (euuid : String) (event_data : Value)
    (timestamp : Value) (priority : String) : SrvOut :=
  let ck : Except PyErr (Option PubKey) :=
    if acontains host s.encrypted_hosts then
      match alookup cuuid s.registry with
      | none => .error .keyError
      | some e =>
        match e.encryption with
        | none => .error .keyError
        | some k => .ok (some k)
    else .ok none
  match ck with
  | .error e => ⟨none, s, [], [], [], some e⟩
  | .ok _client_key =>
    if !is_registered s cuuid host.1 then
      ⟨some .byeEvent, s, [], [], [], none⟩
    else if acontains euuid s.event_uuids then
      ⟨none, s, [], [], [], none⟩
    else
      let s1 := { s with event_uuids := ainsert euuid 0 s.event_uuids }
      if hook cuuid euuid event_data then
        let r := SMsg.legal euuid priority
        ⟨some r, s1, [⟨cuuid, euuid, r⟩], [(cuuid, euuid, event_data)],
         [(cuuid, euuid, event_data)], none⟩
      else
        let r := SMsg.illegal euuid priority
        ⟨some r, s1, [⟨cuuid, euuid, r⟩], [(cuuid, euuid, event_data)], [], none⟩

/-- retransmit (server.py lines 153-200): no-op when the euuid is gone;
otherwise increment the count, then delete when the incremented count
exceeds max_retries or the cuuid is unregistered, else resend the cached
response to the address currently in the registry and reschedule. -/
def srvRetransmit (s : ServerState) (d : RetransmitData) :
    ServerState × List (SMsg × Addr) × List RetransmitData :=
  match alookup d.euuid s.event_uuids with
  | none => (s, [], [])
  | some n =>
    let cnt := n + 1
    let s1 := { s with event_uuids := ainsert d.euuid cnt s.event_uuids }
    if cnt > s.max_retries ∨ acontains d.cuuid s.registry = false then
      ({ s1 with event_uuids := aerase d.euuid s1.event_uuids }, [], [])
    else
      match alookup d.cuuid s.registry with
      | some e => (s1, [(d.response, (e.host, e.port))], [d])
      | none => (s1, [], [])

/-- What notify returns when it does not raise: the False of the
"Host not found/Port not found" guards, or the implicit None. -/
inductive NotifyRet where
  | retFalse : NotifyRet
  | retNone : NotifyRet

structure NotifyOut where
  ret : Option NotifyRet
  st : ServerState
  sends : List (SMsg × Addr)
  scheds : List RetransmitData
  err : Option PyErr

/-- notify (server.py lines 516-588).  The membership test
`"encryption" in self.registry[cuuid]` at line 540 subscripts the registry
first, so an unknown cuuid raises KeyError there, before the try/except
blocks of lines 549-560; for a present entry those guarded host/port
lookups cannot fail because every entry carries host and port. -/
def srvNotify (s : ServerState) (cuuid : String) (event_data : Value)
    (euuid : String) : NotifyOut :=
  match alookup cuuid s.registry with
  | none => ⟨none, s, [], [], some .keyError⟩
  | some entry =>
    let _client_key := entry.encryption
    let packet := SMsg.notifyMsg euuid event_data
    let s1 := { s with event_uuids := ainsert euuid 0 s.event_uuids }
    ⟨some .retNone, s1, [(packet, (entry.host, entry.port))],
     [⟨cuuid, euuid, packet⟩], none⟩

/-- The optional "encryption" field `[n, e]` of a REGISTER payload. -/
def getEncField (msgData : Value) : Except PyErr (Option PubKey) :=
  match msgData with
  | .vobj l =>
    match alookup "encryption" l with
    | none => .ok none
    | some (.varr (.vint a :: .vint b :: _)) => .ok (some (a, b))
    | some _ => .error .typeError
  | _ => .error .typeError

/-- handle_message (server.py lines 203-277), given the unserialized
msg_data.  A falsy decode returns None at line 228; then line 231
evaluates msg_data["cuuid"] for the is_registered debug check before any
dispatch on "method"; an unknown or absent method falls through and
returns None. -/
def srvHandleMessage (hook : String → String → Value → Bool) (now : Nat)
    (s : ServerState) (msgData : Value) (host : Addr) : SrvOut :=
  if !vtruthy msgData then ⟨none, s, [], [], [], none⟩
  else
    match pyGet msgData "cuuid" with
    | .error e => ⟨none, s, [], [], [], some e⟩
    | .ok _ =>
      match pyGet msgData "method" with
      | .error _ => ⟨none, s, [], [], [], none⟩
      | .ok mv =>
        match mv with
        | .vstr "REGISTER" =>
          match (do
            let c ← getStr msgData "cuuid"
            let enc ← getEncField msgData
            pure (c, enc) : Except PyErr (String × Option PubKey)) with
          | .error e => ⟨none, s, [], [], [], some e⟩
          | .ok (c, enc) =>
            let r := srvRegister s now ⟨c, enc⟩ host
            ⟨some r.1, r.2, [], [], [], none⟩
        | .vstr "OHAI" =>
          match pyGet msgData "version" with
          | .error e => ⟨none, s, [], [], [], some e⟩
          | .ok v =>
            let ok :=
              match v with
              | .vstr vs => s.allowed_versions.contains vs
              | _ => false
            if ok then ⟨some (.ohaiClient s.version s.server_name), s, [], [], [], none⟩
            else ⟨some .byeRegister, s, [], [], [], none⟩
        | .vstr "EVENT" =>
          match (do
            let c ← getStr msgData "cuuid"
            let e ← getStr msgData "euuid"
            let ed ← pyGet msgData "event_data"
            let ts ← pyGet msgData "timestamp"
            let pr ← getStr msgData "priority"
            pure (c, e, ed, ts, pr) :
              Except PyErr (String × String × Value × Value × String)) with
          | .error e => ⟨none, s, [], [], [], some e⟩
          | .ok (c, e, ed, ts, pr) => srvEvent hook s c host e ed ts pr
        | .vstr "OK EVENT" =>
          match getStr msgData "euuid" with
          | .error e => ⟨none, s, [], [], [], some e⟩
          | .ok e =>
            ⟨none, { s with event_uuids := aerase e s.event_uuids }, [], [], [], none⟩
        | .vstr "OK NOTIFY" =>
          match getStr msgData "euuid" with
          | .error e => ⟨none, s, [], [], [], some e⟩
          | .ok e =>
            ⟨none, { s with event_uuids := aerase e s.event_uuids }, [], [], [], none⟩
        | _ => ⟨none, s, [], [], [], none⟩

/-- receive_datagram (core.py lines 361-393) on the server side: every
exception from handle_message is caught and the datagram dropped; a
truthy response is sent back to the source. -/
def srvReceiveDatagram (hook : String → String → Value → Bool) (now : Nat)
    (s : ServerState) (msgData : Value) (host : Addr) :
    ServerState × List (SMsg × Addr) :=
  let o := srvHandleMessage hook now s msgData host
  match o.err with
  | some _ => (o.st, [])
  | none =>
    match o.resp with
    | some r => (o.st, [(r, host)])
    | none => (o.st, [])

/-! Client engine (client.py). -/

/-- The EVENT packet built at client.py lines 460-466; it is both the sent
datagram and the pending-table entry (the same dict object). -/
structure EventPacket where
  cuuid : String
  euuid : String
  event_data : Value
  timestamp : String
  retry : Nat
  priority : String

/-- Structured client-to-server payloads, before serialize_data. -/
inductive CMsg where
  | ohai : String → String → CMsg
  | registerMsg : String → Option PubKey → CMsg
  | eventMsg : EventPacket → CMsg
  | okEvent : String → String → CMsg
  | okNotify : String → String → CMsg

/-- A client call_later record: the REGISTER retry dict of client.py
lines 406-408 or the EVENT packet of line 483. -/
inductive CSched where
  | regRetry : Addr → CSched
  | evRetry : EventPacket → CSched

structure ClientState where
  cuuid : String
  version : String
  registered : Bool
  autoregistering : Bool
  server : Option Addr
  server_key : Option PubKey
  encryption : Option PubKey
  register_retries : Nat
  max_retries : Nat
  event_uuids : List (String × EventPacket)
  event_rollbacks : List (String × EventPacket)
  event_notifies : List (String × Value)
  event_confirmations : List (String × EventPacket)
  discovered_servers : List (Addr × (Value × Value))

/-- register (client.py lines 363-408): send REGISTER (with the client's
public-key parameters when encryption is enabled), reset the retry
counter when retry is true, and schedule the retransmit check. -/
def cliRegister (s : ClientState) (address : Addr) (retry : Bool) :
    ClientState × List (CMsg × Option Addr) × List CSched :=
  let msg := CMsg.registerMsg s.cuuid s.encryption
  let s1 := if retry then { s with register_retries := 0 } else s
  (s1, [(msg, some address)], [.regRetry address])

/-- What client event returns: False when unregistered, else the euuid. -/
inductive CliEventRet where
  | retFalse : CliEventRet
  | retEuuid : String → CliEventRet

structure CliEventOut where
  ret : CliEventRet
  st : ClientState
  sends : List (CMsg × Option Addr)
  scheds : List CSched

/-- event (client.py lines 411-485): return False before doing anything
when not registered; otherwise build the packet, send it to the server,
record it in event_uuids and schedule the retransmit check.  euuid and
ts stand for the freshly minted uuid and str(datetime.now()). -/
def cliEvent (s : ClientState) (euuid : String) (ts : String)
    (event_data : Value) (priority : String) : CliEventOut :=
  if !s.registered then ⟨.retFalse, s, [], []⟩
  else
    let packet : EventPacket :=
      { cuuid := s.cuuid, euuid := euuid, event_data := event_data,
        timestamp := ts, retry := 0, priority := priority }
    ⟨.retEuuid euuid,
     { s with event_uuids := ainsert euuid packet s.event_uuids },
     [(.eventMsg packet, s.server)], [.evRetry packet]⟩

/-- retransmit (client.py lines 173-230).  The scheduled dict aliases the
entry stored in event_uuids, so the increment at line 203 is visible both
in the resent datagram and in the rescheduled record. -/
def cliRetransmit (s : ClientState) (d : CSched) :
    ClientState × List (CMsg × Option Addr) × List CSched :=
  match d with
  | .regRetry address =>
    if !s.registered && decide (s.register_retries < s.max_retries) then
      let s1 := { s with register_retries := s.register_retries + 1 }
      cliRegister s1 address false
    else (s, [], [])
  | .evRetry p =>
    match alookup p.euuid s.event_uuids with
    | none => (s, [], [])
    | some q =>
      let q1 := { q with retry := q.retry + 1 }
      if q1.retry > s.max_retries then
        ({ s with event_uuids := aerase p.euuid s.event_uuids }, [], [])
      else
        ({ s with event_uuids := ainsert p.euuid q1 s.event_uuids },
         [(.eventMsg q1, s.server)], [.evRetry q1])

/-- Runs the chain of scheduled retransmit callbacks for up to n scheduler
firings, counting the datagrams sent; the chain ends as soon as a firing
schedules nothing further. -/
def cliWakes (s : ClientState) (d : CSched) : Nat → ClientState × Nat
  | 0 => (s, 0)
  | Nat.succ n =>
    match cliRetransmit s d with
    | (s1, sends, [d1]) =>
      let rest := cliWakes s1 d1 n
      (rest.1, sends.length + rest.2)
    | (s1, sends, _) => (s1, sends.length)

/-- legal_check (client.py lines 488-541).  On LEGAL with high priority
the pending packet is copied into event_confirmations before the guarded
delete; the copy itself is unguarded and raises KeyError when the euuid
is gone.  On ILLEGAL both the copy into event_rollbacks and the delete
are unguarded. -/
def legal_check (s : ClientState) (method : String) (euuid : String)
    (priority : String) : Except PyErr ClientState :=
  if method = "LEGAL" then
    match (if priority = "high" then
      match alookup euuid s.event_uuids with
      | none => Except.error PyErr.keyError
      | some p =>
        Except.ok { s with event_confirmations := ainsert euuid p s.event_confirmations }
    else Except.ok s) with
    | .error e => .error e
    | .ok s1 => .ok { s1 with event_uuids := aerase euuid s1.event_uuids }
  else if method = "ILLEGAL" then
    match alookup euuid s.event_uuids with
    | none => .error .keyError
    | some p =>
      .ok { s with event_rollbacks := ainsert euuid p s.event_rollbacks,
                   event_uuids := aerase euuid s.event_uuids }
  else .ok s

/-- Structured server-to-client messages as the client dispatches on them
(client.py lines 273-317). -/
inductive SrvToCli where
  | ohaiClient : Value → Value → SrvToCli
  | notify : String → Value → SrvToCli
  | okRegister : Option PubKey → SrvToCli
  | legal : String → String → SrvToCli
  | illegal : String → String → SrvToCli

structure CliOut where
  resp : Option CMsg
  st : ClientState
  sends : List (CMsg × Option Addr)
  scheds : List CSched
  err : Option PyErr

/-- handle_message (client.py lines 233-321), given the decoded message.
LEGAL and ILLEGAL both run legal_check and then answer OK EVENT with the
same euuid; a KeyError escaping legal_check aborts the handler before the
response is built. -/
def cliHandleMessage (s : ClientState) (m : SrvToCli) (host : Addr) : CliOut :=
  match m with
  | .ohaiClient v sn =>
    let s1 := { s with discovered_servers := ainsert host (v, sn) s.discovered_servers }
    if s1.autoregistering then
      let step := cliRegister s1 host true
      ⟨none, { step.1 with autoregistering := false }, step.2.1, step.2.2, none⟩
    else ⟨none, s1, [], [], none⟩
  | .notify e ed =>
    let s1 := { s with event_notifies := ainsert e ed s.event_notifies }
    ⟨some (.okNotify s.cuuid e), s1, [], [], none⟩
  | .okRegister enc =>
    let s1 := { s with registered := true, server := some host }
    let s2 :=
      match enc, s.encryption with
      | some k, some _ => { s1 with server_key := some k }
      | _, _ => s1
    ⟨none, s2, [], [], none⟩
  | .legal e pr =>
    match legal_check s "LEGAL" e pr with
    | .error pe => ⟨none, s, [], [], some pe⟩
    | .ok s1 => ⟨some (.okEvent s.cuuid e), s1, [], [], none⟩
  | .illegal e pr =>
    match legal_check s "ILLEGAL" e pr with
    | .error pe => ⟨none, s, [], [], some pe⟩
    | .ok s1 => ⟨some (.okEvent s.cuuid e), s1, [], [], none⟩

/-! Concrete fixtures used by witnesses and counterexamples. -/

def sBase : ServerState :=
  { version := "1.0.2", allowed_versions := ["1.0.2"], server_name := some "S",
    event_uuids := [], encrypted_hosts := [], registry := [],
    encryption := none, max_retries := 4, registration_limit := 50 }

def entryA : RegEntry :=
  { host := "10.0.0.5", port := 51000, time := 7, encryption := none }

def entryKeyed : RegEntry :=
  { host := "1.1.1.1", port := 10, time := 0, encryption := some (91, 5) }

def csBase : ClientState :=
  { cuuid := "C1", version := "1.0.2", registered := true,
    autoregistering := false, server := some ("10.0.0.5", 40080),
    server_key := none, encryption := none, register_retries := 0,
    max_retries := 4, event_uuids := [], event_rollbacks := [],
    event_notifies := [], event_confirmations := [], discovered_servers := [] }

def pkE3 : EventPacket :=
  { cuuid := "C1", euuid := "E3", event_data := .vnull, timestamp := "T",
    retry := 0, priority := "normal" }

def hookTrue : String → String → Value → Bool := fun _ _ _ => true

def sDup : ServerState := { sBase with event_uuids := [("E1", 0)] }

def sDupReg : ServerState :=
  { sBase with event_uuids := [("E1", 0)], registry := [("C1", entryA)] }

def sLimit : ServerState :=
  { sBase with registry := [("C1", entryKeyed)], registration_limit := 0 }

def sKeyed : ServerState := { sBase with registry := [("C1", entryKeyed)] }

def csPending : ClientState := { csBase with event_uuids := [("E3", pkE3)] }

def sRetry : ServerState :=
  { sBase with event_uuids := [("E1", 4)] }

def sResend : ServerState :=
  { sBase with event_uuids := [("E1", 0)], registry := [("C1", entryA)] }

def dE1 : RetransmitData := ⟨"C1", "E1", SMsg.legal "E1" "normal"⟩

/-! Lemmas about the association-list map operations. -/

@[simp]
theorem alookup_ainsert_self {κ α : Type} [DecidableEq κ] (k : κ) (v : α)
    (l : List (κ × α)) : alookup k (ainsert k v l) = some v := by
  induction l with
  | nil => simp [alookup, ainsert]
  | cons h t ih =>
    obtain ⟨k', v'⟩ := h
    by_cases hk : k = k' <;> simp [alookup, ainsert, hk, ih]

theorem alookup_ainsert_of_ne {κ α : Type} [DecidableEq κ] {k k' : κ} (v : α)
    (l : List (κ × α)) (h : k' ≠ k) :
    alookup k' (ainsert k v l) = alookup k' l := by
  induction l with
  | nil => simp [alookup, ainsert, h]
  | cons p t ih =>
    obtain ⟨k0, v0⟩ := p
    by_cases hk : k = k0
    · subst hk
      simp [alookup, ainsert, h]
    · by_cases hk' : k' = k0 <;> simp [alookup, ainsert, hk, hk', ih]

@[simp]
theorem ainsert_ainsert {κ α : Type} [DecidableEq κ] (k : κ) (v w : α)
    (l : List (κ × α)) : ainsert k v (ainsert k w l) = ainsert k v l := by
  induction l with
  | nil => simp [ainsert]
  | cons p t ih =>
    obtain ⟨k0, v0⟩ := p
    by_cases hk : k = k0 <;> simp [ainsert, hk, ih]

@[simp]
theorem aerase_ainsert {κ α : Type} [DecidableEq κ] (k : κ) (v : α)
    (l : List (κ × α)) : aerase k (ainsert k v l) = aerase k l := by
  induction l with
  | nil => simp [ainsert, aerase]
  | cons p t ih =>
    obtain ⟨k0, v0⟩ := p
    by_cases hk : k = k0 <;> simp [ainsert, aerase, hk, ih]

theorem aerase_of_alookup_none {κ α : Type} [DecidableEq κ] {k : κ}
    {l : List (κ × α)} (h : alookup k l = none) : aerase k l = l := by
  induction l with
  | nil => simp [aerase]
  | cons p t ih =>
    obtain ⟨k0, v0⟩ := p
    by_cases hk : k = k0
    · simp [alookup, hk] at h
    · simp [alookup, hk] at h
      simp [aerase, hk, ih h]

theorem length_ainsert_le {κ α : Type} [DecidableEq κ] (k : κ) (v : α)
    (l : List (κ × α)) : (ainsert k v l).length ≤ l.length + 1 := by
  induction l with
  | nil => simp [ainsert]
  | cons p t ih =>
    obtain ⟨k0, v0⟩ := p
    by_cases hk : k = k0 <;> simp [ainsert, hk] <;> omega

theorem acontains_of_alookup_some {κ α : Type} [DecidableEq κ] {k : κ}
    {l : List (κ × α)} {v : α} (h : alookup k l = some v) :
    acontains k l = true := by
  simp [acontains, h]

/-! Claim theorems. -/

/-- Claim C5 (code bug witnessed): with compression off and encryption on,
unserialize_data never assigns its local `message` — the decrypt succeeds,
the compression block is skipped, and the final json.loads is guarded by
`if not encryption and not compression` — so `return message` raises
UnboundLocalError instead of returning the original mapping, for every
value and matching keypair.  This contradicts the function's own
docstring, which promises the unserialized message whenever the same
options are enabled on both sides. -/
theorem unserialize_encryption_only_unbound (v : Value) (kp : Keypair) :
    unserialize_data (serialize_data v false true (some kp.pub)) false (some kp) =
      UResult.unboundLocal := by
  simp [serialize_data, unserialize_data, decrypt]

/-- Claim C6: client event called while registered is false returns False,
hands nothing to the transport, records no pending entry and schedules no
retransmit callback; the state is untouched. -/
theorem client_event_unregistered_noop (s : ClientState) (euuid ts : String)
    (ed : Value) (pr : String) (h : s.registered = false) :
    cliEvent s euuid ts ed pr = ⟨.retFalse, s, [], []⟩ := by
  simp [cliEvent, h]

theorem client_event_unregistered_noop_witness :
    ({ csBase with registered := false } : ClientState).registered = false ∧
    cliEvent { csBase with registered := false } "E7" "T" .vnull "normal" =
      ⟨.retFalse, { csBase with registered := false }, [], []⟩ :=
  ⟨rfl, client_event_unregistered_noop _ "E7" "T" .vnull "normal" rfl⟩

/-- Claim C10: notify called with a cuuid absent from the registry raises
KeyError at the `"encryption" in self.registry[cuuid]` lookup, before the
guarded host/port lookups, so the "Host not found in registry! Transmit
Canceled" fallback that returns False is unreachable for an unknown cuuid:
the call raises instead of returning False, sends nothing, schedules
nothing and leaves the state unchanged. -/
theorem notify_unknown_cuuid_keyerror (s : ServerState) (cuuid : String)
    (ed : Value) (euuid : String) (h : alookup cuuid s.registry = none) :
    (srvNotify s cuuid ed euuid).err = some .keyError ∧
    (srvNotify s cuuid ed euuid).ret ≠ some .retFalse ∧
    (srvNotify s cuuid ed euuid).st = s ∧
    (srvNotify s cuuid ed euuid).sends = [] ∧
    (srvNotify s cuuid ed euuid).scheds = [] := by
  simp [srvNotify, h]

theorem notify_unknown_cuuid_keyerror_witness :
    alookup "CX" sBase.registry = none ∧
    ((srvNotify sBase "CX" .vnull "E5").err = some .keyError ∧
     (srvNotify sBase "CX" .vnull "E5").ret ≠ some .retFalse ∧
     (srvNotify sBase "CX" .vnull "E5").st = sBase ∧
     (srvNotify sBase "CX" .vnull "E5").sends = [] ∧
     (srvNotify sBase "CX" .vnull "E5").scheds = []) :=
  ⟨rfl, notify_unknown_cuuid_keyerror sBase "CX" .vnull "E5" rfl⟩

/-- Claim C9, counterexample to the claim as stated: the empty mapping is
a successfully decoded datagram that lacks a "cuuid" field, yet it raises
no KeyError — it is falsy, so handle_message returns None at the
`if not msg_data` guard (server.py line 228) before msg_data["cuuid"] is
ever evaluated. -/
theorem server_missing_cuuid_cex :
    (srvHandleMessage hookTrue 0 sBase (.vobj []) ("10.0.0.5", 51000)).err = none ∧
    (srvHandleMessage hookTrue 0 sBase (.vobj []) ("10.0.0.5", 51000)).resp = none ∧
    (srvHandleMessage hookTrue 0 sBase (.vobj []) ("10.0.0.5", 51000)).st = sBase :=
  ⟨rfl, rfl, rfl⟩

/-- Claim C9 as amended: every successfully decoded datagram that is a
non-empty (hence truthy) mapping without a "cuuid" key raises KeyError at
the is_registered debug check, before any dispatch on "method"; the
listener's receive_datagram catches it, so the datagram is dropped, no
reply is sent, no callback is scheduled, no middleware hook runs, and the
server state is unchanged, regardless of the method field. -/
theorem server_missing_cuuid_dropped (hook : String → String → Value → Bool)
    (now : Nat) (s : ServerState) (l : List (String × Value)) (host : Addr)
    (h1 : l ≠ []) (h2 : alookup "cuuid" l = none) :
    (srvHandleMessage hook now s (.vobj l) host).err = some .keyError ∧
    (srvHandleMessage hook now s (.vobj l) host).st = s ∧
    (srvHandleMessage hook now s (.vobj l) host).resp = none ∧
    (srvHandleMessage hook now s (.vobj l) host).scheds = [] ∧
    (srvHandleMessage hook now s (.vobj l) host).legalCalls = [] ∧
    (srvHandleMessage hook now s (.vobj l) host).execCalls = [] ∧
    srvReceiveDatagram hook now s (.vobj l) host = (s, []) := by
  cases l with
  | nil => exact absurd rfl h1
  | cons a t =>
    simp [srvHandleMessage, srvReceiveDatagram, vtruthy, pyGet, h2]

theorem server_missing_cuuid_dropped_witness :
    ([(("method", Value.vstr "EVENT"))] ≠ ([] : List (String × Value)) ∧
     alookup "cuuid" [(("method", Value.vstr "EVENT"))] = none) ∧
    ((srvHandleMessage hookTrue 0 sBase (.vobj [("method", .vstr "EVENT")])
        ("10.0.0.5", 51000)).err = some .keyError ∧
     (srvHandleMessage hookTrue 0 sBase (.vobj [("method", .vstr "EVENT")])
        ("10.0.0.5", 51000)).st = sBase ∧
     (srvHandleMessage hookTrue 0 sBase (.vobj [("method", .vstr "EVENT")])
        ("10.0.0.5", 51000)).resp = none ∧
     (srvHandleMessage hookTrue 0 sBase (.vobj [("method", .vstr "EVENT")])
        ("10.0.0.5", 51000)).scheds = [] ∧
     (srvHandleMessage hookTrue 0 sBase (.vobj [("method", .vstr "EVENT")])
        ("10.0.0.5", 51000)).legalCalls = [] ∧
     (srvHandleMessage hookTrue 0 sBase (.vobj [("method", .vstr "EVENT")])
        ("10.0.0.5", 51000)).execCalls = [] ∧
     srvReceiveDatagram hookTrue 0 sBase (.vobj [("method", .vstr "EVENT")])
        ("10.0.0.5", 51000) = (sBase, [])) :=
  ⟨⟨by simp, rfl⟩,
   server_missing_cuuid_dropped hookTrue 0 sBase [("method", .vstr "EVENT")]
     ("10.0.0.5", 51000) (by simp) rfl⟩

/-- Claim C1, counterexample to the claim as stated: an EVENT whose euuid
is already in event_uuids but whose sender fails the is_registered check
is answered with BYE EVENT — the registration check at server.py line 453
runs before the duplicate check at line 463 — so a duplicate in-flight
euuid alone does not guarantee zero reply datagrams. -/
theorem duplicate_event_claim_cex :
    acontains "E1" sDup.event_uuids = true ∧
    (srvEvent hookTrue sDup "C9" ("10.0.0.9", 999) "E1" .vnull .vnull
      "normal").resp = some .byeEvent :=
  ⟨rfl, rfl⟩

/-- Claim C1 as amended: for every incoming EVENT datagram from a client
that passes the registration check and whose euuid is already a key of
event_uuids, the server returns no response, invokes neither event_legal
nor event_execute, schedules nothing, and leaves the server state
unchanged.  (When the source is marked encrypted and its stored key is
missing, the handler aborts with KeyError even earlier, with the same
observable outcome.) -/
theorem duplicate_event_silently_dropped (hook : String → String → Value → Bool)
    (s : ServerState) (cuuid : String) (host : Addr) (euuid : String)
    (ed ts : Value) (pr : String)
    (hdup : acontains euuid s.event_uuids = true)
    (hreg : is_registered s cuuid host.1 = true) :
    (srvEvent hook s cuuid host euuid ed ts pr).resp = none ∧
    (srvEvent hook s cuuid host euuid ed ts pr).st = s ∧
    (srvEvent hook s cuuid host euuid ed ts pr).scheds = [] ∧
    (srvEvent hook s cuuid host euuid ed ts pr).legalCalls = [] ∧
    (srvEvent hook s cuuid host euuid ed ts pr).execCalls = [] := by
  unfold srvEvent
  by_cases hh : acontains host s.encrypted_hosts
  · rcases he : alookup cuuid s.registry with _ | e
    · rw [is_registered, he] at hreg
      simp at hreg
    · rcases hke : e.encryption with _ | k
      · simp [hh, he, hke]
      · simp [hh, he, hke, hreg, hdup]
  · simp [hh, hreg, hdup]

theorem duplicate_event_silently_dropped_witness :
    (acontains "E1" sDupReg.event_uuids = true ∧
     is_registered sDupReg "C1" "10.0.0.5" = true) ∧
    ((srvEvent hookTrue sDupReg "C1" ("10.0.0.5", 51000) "E1" .vnull .vnull
        "normal").resp = none ∧
     (srvEvent hookTrue sDupReg "C1" ("10.0.0.5", 51000) "E1" .vnull .vnull
        "normal").st = sDupReg ∧
     (srvEvent hookTrue sDupReg "C1" ("10.0.0.5", 51000) "E1" .vnull .vnull
        "normal").scheds = [] ∧
     (srvEvent hookTrue sDupReg "C1" ("10.0.0.5", 51000) "E1" .vnull .vnull
        "normal").legalCalls = [] ∧
     (srvEvent hookTrue sDupReg "C1" ("10.0.0.5", 51000) "E1" .vnull .vnull
        "normal").execCalls = []) :=
  ⟨⟨rfl, rfl⟩,
   duplicate_event_silently_dropped hookTrue sDupReg "C1" ("10.0.0.5", 51000)
     "E1" .vnull .vnull "normal" rfl rfl⟩

/-- Claim C4: register replies BYE REGISTER and leaves the state untouched
exactly when len(registry) > registration_limit at handling time;
otherwise it never replies BYE REGISTER, the registering cuuid is present
afterwards and every other cuuid's entry is unchanged; and one register
step preserves len(registry) ≤ registration_limit + 1 (the admission check
is strict, so one over-limit transient entry is permitted). -/
theorem registration_admission_bound (s : ServerState) (now : Nat)
    (m : RegisterMsg) (host : Addr) (c : String) (hc : c ≠ m.cuuid) :
    (s.registry.length > s.registration_limit →
      (srvRegister s now m host).1 = .byeRegister ∧
      (srvRegister s now m host).2 = s) ∧
    (s.registry.length ≤ s.registration_limit →
      (srvRegister s now m host).1 ≠ .byeRegister ∧
      acontains m.cuuid (srvRegister s now m host).2.registry = true ∧
      alookup c (srvRegister s now m host).2.registry = alookup c s.registry) ∧
    (s.registry.length ≤ s.registration_limit + 1 →
      (srvRegister s now m host).2.registry.length ≤ s.registration_limit + 1) := by
  by_cases hlen : s.registry.length > s.registration_limit
  · refine ⟨fun _ => ?_, fun h => absurd h (by omega), fun h => ?_⟩
    · simp [srvRegister, hlen]
    · simp [srvRegister, hlen]
      omega
  · refine ⟨fun h => absurd h hlen, fun _ => ?_, fun _ => ?_⟩
    · rcases hme : m.encryption with _ | k <;> rcases hse : s.encryption with _ | se <;>
        rcases hold : alookup m.cuuid s.registry with _ | old <;>
          simp [srvRegister, hlen, hme, hse, hold, acontains,
                alookup_ainsert_of_ne _ _ hc]
    · rcases hme : m.encryption with _ | k <;> rcases hse : s.encryption with _ | se <;>
        rcases hold : alookup m.cuuid s.registry with _ | old <;>
          simp [srvRegister, hlen, hme, hse, hold] <;>
            have := length_ainsert_le m.cuuid
              ({ host := host.1, port := host.2, time := now,
                 encryption := none } : RegEntry) s.registry <;>
              first
                | omega
                | (have h2 := length_ainsert_le m.cuuid
                    (mergeEntry old { host := host.1, port := host.2, time := now,
                                      encryption := none }) s.registry; omega)
                | (have h2 := length_ainsert_le m.cuuid
                    ({ host := host.1, port := host.2, time := now,
                       encryption := some k } : RegEntry) s.registry; omega)
                | (have h2 := length_ainsert_le m.cuuid
                    (mergeEntry old { host := host.1, port := host.2, time := now,
                                      encryption := some k }) s.registry; omega)

theorem registration_admission_bound_witness :
    ("C2" ≠ "C1" ∧ sLimit.registry.length > sLimit.registration_limit ∧
      sBase.registry.length ≤ sBase.registration_limit) ∧
    ((srvRegister sLimit 5 ⟨"C1", none⟩ ("2.2.2.2", 20)).1 = .byeRegister ∧
     (srvRegister sLimit 5 ⟨"C1", none⟩ ("2.2.2.2", 20)).2 = sLimit) ∧
    ((srvRegister sBase 5 ⟨"C1", none⟩ ("10.0.0.5", 51000)).1 ≠ .byeRegister ∧
     acontains "C1" (srvRegister sBase 5 ⟨"C1", none⟩ ("10.0.0.5", 51000)).2.registry = true ∧
     alookup "C2" (srvRegister sBase 5 ⟨"C1", none⟩ ("10.0.0.5", 51000)).2.registry =
       alookup "C2" sBase.registry) ∧
    (srvRegister sBase 5 ⟨"C1", none⟩ ("10.0.0.5", 51000)).2.registry.length ≤
      sBase.registration_limit + 1 :=
  ⟨⟨by decide, by decide, by decide⟩,
   (registration_admission_bound sLimit 5 ⟨"C1", none⟩ ("2.2.2.2", 20) "C2"
     (by decide)).1 (by decide),
   (registration_admission_bound sBase 5 ⟨"C1", none⟩ ("10.0.0.5", 51000) "C2"
     (by decide)).2.1 (by decide),
   (registration_admission_bound sBase 5 ⟨"C1", none⟩ ("10.0.0.5", 51000) "C2"
     (by decide)).2.2 (by decide)⟩

/-- Claim C8, counterexample to the claim as stated: a REGISTER for an
already-present cuuid is rejected with BYE REGISTER — nothing is merged —
when the admission check fails: here the client re-registers from a new
address but the registry is over the limit, and the stored host stays
"1.1.1.1" instead of being merged to "2.2.2.2". -/
theorem reregister_limit_cex :
    acontains "C1" sLimit.registry = true ∧
    srvRegister sLimit 5 ⟨"C1", none⟩ ("2.2.2.2", 20) = (.byeRegister, sLimit) ∧
    (alookup "C1" (srvRegister sLimit 5 ⟨"C1", none⟩ ("2.2.2.2", 20)).2.registry).map
      RegEntry.host = some "1.1.1.1" :=
  ⟨rfl, rfl, rfl⟩

/-- Claim C8 as amended: when a REGISTER for a cuuid already in the
registry passes the admission check (len(registry) ≤ registration_limit),
register merges host, port and time — and the reconstructed public key
exactly when the message carries key parameters and the server has
encryption enabled — into the existing entry, preserving the old
"encryption" key whenever it does not overwrite it (in particular a
re-register without key parameters keeps a previously stored public key),
and the registry entries of all other cuuids are unchanged. -/
theorem reregister_merges_entry (s : ServerState) (now : Nat)
    (m : RegisterMsg) (host : Addr) (old : RegEntry) (c : String)
    (hold : alookup m.cuuid s.registry = some old)
    (hlen : s.registry.length ≤ s.registration_limit)
    (hc : c ≠ m.cuuid) :
    alookup m.cuuid (srvRegister s now m host).2.registry =
      some { host := host.1, port := host.2, time := now,
             encryption :=
               match m.encryption, s.encryption with
               | some k, some _ => some k
               | _, _ => old.encryption } ∧
    alookup c (srvRegister s now m host).2.registry = alookup c s.registry := by
  have hlen' : ¬ s.registry.length > s.registration_limit := by omega
  rcases hme : m.encryption with _ | k <;> rcases hse : s.encryption with _ | se <;>
    simp [srvRegister, hlen', hme, hse, hold, mergeEntry,
          alookup_ainsert_of_ne _ _ hc]

theorem reregister_merges_entry_witness :
    (alookup "C1" sKeyed.registry = some entryKeyed ∧
     sKeyed.registry.length ≤ sKeyed.registration_limit ∧ "C2" ≠ "C1") ∧
    (alookup "C1" (srvRegister sKeyed 5 ⟨"C1", none⟩ ("2.2.2.2", 20)).2.registry =
      some { host := "2.2.2.2", port := 20, time := 5,
             encryption := entryKeyed.encryption } ∧
     alookup "C2" (srvRegister sKeyed 5 ⟨"C1", none⟩ ("2.2.2.2", 20)).2.registry =
       alookup "C2" sKeyed.registry) :=
  ⟨⟨rfl, by decide, by decide⟩,
   reregister_merges_entry sKeyed 5 ⟨"C1", none⟩ ("2.2.2.2", 20) entryKeyed "C2"
     rfl (by decide) (by decide)⟩

/-- Claim C7, counterexample to the claim as stated: an ILLEGAL datagram
whose euuid is no longer in the client's pending table does not produce an
OK EVENT reply — the unguarded copy into event_rollbacks at client.py
line 539 raises KeyError, the handler aborts, and the listener drops the
datagram with no response. -/
theorem illegal_missing_euuid_cex :
    alookup "E9" csBase.event_uuids = none ∧
    (cliHandleMessage csBase (.illegal "E9" "normal") ("10.0.0.5", 40080)).resp = none ∧
    (cliHandleMessage csBase (.illegal "E9" "normal") ("10.0.0.5", 40080)).err =
      some .keyError :=
  ⟨rfl, rfl, rfl⟩

/-- Claim C7 as amended: for every LEGAL or ILLEGAL datagram whose euuid
is still in the client's pending table, handle_message applies the
legality handling — on LEGAL with priority "high" the pending packet is
moved into event_confirmations before deletion, on LEGAL with priority
"normal" it is simply deleted, on ILLEGAL it is moved into
event_rollbacks — and replies OK EVENT carrying the same euuid.  When the
euuid is absent, only LEGAL with priority "normal" still replies OK EVENT
(its delete is guarded); LEGAL with priority "high" and ILLEGAL instead
raise KeyError in legal_check and produce no reply and no state change. -/
theorem legality_reply_ok_event (s : ClientState) (e : String) (host : Addr)
    (p : EventPacket) (pr : String) :
    (alookup e s.event_uuids = some p →
      cliHandleMessage s (.legal e "high") host =
        ⟨some (.okEvent s.cuuid e),
         { s with event_confirmations := ainsert e p s.event_confirmations,
                  event_uuids := aerase e s.event_uuids }, [], [], none⟩ ∧
      cliHandleMessage s (.legal e "normal") host =
        ⟨some (.okEvent s.cuuid e),
         { s with event_uuids := aerase e s.event_uuids }, [], [], none⟩ ∧
      cliHandleMessage s (.illegal e pr) host =
        ⟨some (.okEvent s.cuuid e),
         { s with event_rollbacks := ainsert e p s.event_rollbacks,
                  event_uuids := aerase e s.event_uuids }, [], [], none⟩) ∧
    (alookup e s.event_uuids = none →
      cliHandleMessage s (.legal e "normal") host =
        ⟨some (.okEvent s.cuuid e), s, [], [], none⟩ ∧
      cliHandleMessage s (.legal e "high") host =
        ⟨none, s, [], [], some .keyError⟩ ∧
      cliHandleMessage s (.illegal e pr) host =
        ⟨none, s, [], [], some .keyError⟩) := by
  constructor
  · intro h
    refine ⟨?_, ?_, ?_⟩ <;> simp [cliHandleMessage, legal_check, h]
  · intro h
    refine ⟨?_, ?_, ?_⟩ <;>
      simp [cliHandleMessage, legal_check, h, aerase_of_alookup_none h]

theorem legality_reply_ok_event_witness :
    (alookup "E3" csPending.event_uuids = some pkE3 ∧
     alookup "E9" csPending.event_uuids = none) ∧
    (cliHandleMessage csPending (.illegal "E3" "normal") ("10.0.0.5", 40080) =
      ⟨some (.okEvent "C1" "E3"),
       { csPending with event_rollbacks := [("E3", pkE3)],
                        event_uuids := [] }, [], [], none⟩) ∧
    (cliHandleMessage csPending (.legal "E9" "normal") ("10.0.0.5", 40080) =
      ⟨some (.okEvent "C1" "E9"), csPending, [], [], none⟩) :=
  ⟨⟨rfl, rfl⟩,
   ((legality_reply_ok_event csPending "E3" ("10.0.0.5", 40080) pkE3
       "normal").1 rfl).2.2,
   ((legality_reply_ok_event csPending "E9" ("10.0.0.5", 40080) pkE3
       "normal").2 rfl).1⟩

/-- Claim C3: the server's scheduled retransmit callback is a no-op when
the euuid is no longer in event_uuids; it deletes the in-flight record and
returns when the cuuid is not registered or the retry count (the entry's
counter after the increment the callback performs) has exceeded
max_retries; otherwise it leaves the incremented count in place, looks up
the client's current address in registry[cuuid], resends the cached
response bytes to that address, and reschedules itself with the same
record. -/
theorem server_retransmit_cases (s : ServerState) (d : RetransmitData)
    (n : Nat) (entry : RegEntry) :
    (alookup d.euuid s.event_uuids = none → srvRetransmit s d = (s, [], [])) ∧
    (alookup d.euuid s.event_uuids = some n →
      (n + 1 > s.max_retries ∨ alookup d.cuuid s.registry = none) →
      srvRetransmit s d =
        ({ s with event_uuids := aerase d.euuid s.event_uuids }, [], [])) ∧
    (alookup d.euuid s.event_uuids = some n →
      n + 1 ≤ s.max_retries →
      alookup d.cuuid s.registry = some entry →
      srvRetransmit s d =
        ({ s with event_uuids := ainsert d.euuid (n + 1) s.event_uuids },
         [(d.response, (entry.host, entry.port))], [d])) := by
  refine ⟨fun h => ?_, fun h hdel => ?_, fun h hle hcu => ?_⟩
  · simp [srvRetransmit, h]
  · rcases hdel with hgt | hcu
    · simp [srvRetransmit, h, hgt]
    · simp [srvRetransmit, h, acontains, hcu]
  · have hcon : acontains d.cuuid s.registry = true :=
      acontains_of_alookup_some hcu
    have hguard : ¬ (n + 1 > s.max_retries ∨ acontains d.cuuid s.registry = false) := by
      simp [hcon]
      omega
    simp [srvRetransmit, h, hguard, hcu]

theorem server_retransmit_cases_witness :
    (alookup dE1.euuid sBase.event_uuids = none ∧
     alookup dE1.euuid sRetry.event_uuids = some 4 ∧
     alookup dE1.euuid sResend.event_uuids = some 0 ∧
     alookup dE1.cuuid sResend.registry = some entryA) ∧
    srvRetransmit sBase dE1 = (sBase, [], []) ∧
    srvRetransmit sRetry dE1 =
      ({ sRetry with event_uuids := aerase dE1.euuid sRetry.event_uuids }, [], []) ∧
    srvRetransmit sResend dE1 =
      ({ sResend with event_uuids := ainsert dE1.euuid 1 sResend.event_uuids },
       [(dE1.response, (entryA.host, entryA.port))], [dE1]) :=
  ⟨⟨rfl, rfl, rfl, rfl⟩,
   (server_retransmit_cases sBase dE1 0 entryA).1 rfl,
   (server_retransmit_cases sRetry dE1 4 entryA).2.1 rfl (Or.inl (by decide)),
   (server_retransmit_cases sResend dE1 0 entryA).2.2 rfl (by decide) rfl⟩

/-- Claim C2, counterexample to the claim as stated: with the default
max_retries = 4 and an EVENT that never gets a response, the pending
entry is already deleted by the 5th firing of the retransmit callback
(which finds retry_count = 5 > 4), after exactly 4 retransmits; so no 6th
scheduler wake can find retry_count = 5 and delete the entry — by then the
entry is gone, nothing is scheduled, and a 6th wake changes nothing. -/
theorem client_sixth_wake_cex :
    (cliWakes { csBase with event_uuids := [("E3", pkE3)] } (.evRetry pkE3)
      5).1.event_uuids = [] ∧
    (cliWakes { csBase with event_uuids := [("E3", pkE3)] } (.evRetry pkE3)
      5).2 = 4 ∧
    cliWakes { csBase with event_uuids := [("E3", pkE3)] } (.evRetry pkE3) 6 =
      cliWakes { csBase with event_uuids := [("E3", pkE3)] } (.evRetry pkE3) 5 :=
  ⟨rfl, rfl, rfl⟩

/-- Claim C2 as amended: with max_retries = 4, a client EVENT that never
receives a response is sent once by event itself, which also schedules the
retransmit callback; after n callback firings (shown for n = 1 and n = 4)
the stored retry counter equals n and exactly n retransmits have gone out;
the 5th firing finds retry_count = 5 > 4 and deletes the pending entry
without sending or rescheduling — 4 scheduled retransmits, 5 total sends
including the initial one — and afterwards no further datagrams go out:
the callback chain is exhausted (a 6th wake adds nothing) and a stray
callback for the deleted euuid is a no-op. -/
theorem client_retry_exhaustion (s : ClientState) (euuid ts : String)
    (ed : Value) (pr : String)
    (hmr : s.max_retries = 4) (hreg : s.registered = true)
    (hfresh : alookup euuid s.event_uuids = none) :
    cliEvent s euuid ts ed pr =
      ⟨.retEuuid euuid,
       { s with event_uuids :=
           (ainsert euuid ⟨s.cuuid, euuid, ed, ts, 0, pr⟩ s.event_uuids) },
       [(.eventMsg ⟨s.cuuid, euuid, ed, ts, 0, pr⟩, s.server)],
       [.evRetry ⟨s.cuuid, euuid, ed, ts, 0, pr⟩]⟩ ∧
    (cliWakes
        { s with event_uuids :=
            (ainsert euuid ⟨s.cuuid, euuid, ed, ts, 0, pr⟩ s.event_uuids) }
        (.evRetry ⟨s.cuuid, euuid, ed, ts, 0, pr⟩) 1 =
      ({ s with event_uuids :=
           (ainsert euuid ⟨s.cuuid, euuid, ed, ts, 1, pr⟩ s.event_uuids) }, 1)) ∧
    (cliWakes
        { s with event_uuids :=
            (ainsert euuid ⟨s.cuuid, euuid, ed, ts, 0, pr⟩ s.event_uuids) }
        (.evRetry ⟨s.cuuid, euuid, ed, ts, 0, pr⟩) 4 =
      ({ s with event_uuids :=
           (ainsert euuid ⟨s.cuuid, euuid, ed, ts, 4, pr⟩ s.event_uuids) }, 4)) ∧
    (cliWakes
        { s with event_uuids :=
            (ainsert euuid ⟨s.cuuid, euuid, ed, ts, 0, pr⟩ s.event_uuids) }
        (.evRetry ⟨s.cuuid, euuid, ed, ts, 0, pr⟩) 5 = (s, 4)) ∧
    (cliWakes
        { s with event_uuids :=
            (ainsert euuid ⟨s.cuuid, euuid, ed, ts, 0, pr⟩ s.event_uuids) }
        (.evRetry ⟨s.cuuid, euuid, ed, ts, 0, pr⟩) 6 = (s, 4)) ∧
    cliRetransmit s (.evRetry ⟨s.cuuid, euuid, ed, ts, 0, pr⟩) = (s, [], []) := by
  have step : ∀ (k : Nat) (q : EventPacket), q.euuid = euuid → k < 4 →
      cliRetransmit
        { s with event_uuids :=
            (ainsert euuid ⟨s.cuuid, euuid, ed, ts, k, pr⟩ s.event_uuids) }
        (.evRetry q) =
      ({ s with event_uuids :=
           (ainsert euuid ⟨s.cuuid, euuid, ed, ts, k + 1, pr⟩ s.event_uuids) },
       [(.eventMsg ⟨s.cuuid, euuid, ed, ts, k + 1, pr⟩, s.server)],
       [.evRetry ⟨s.cuuid, euuid, ed, ts, k + 1, pr⟩]) := by
    intro k q hq hk
    have hlt : ¬ (k + 1 > s.max_retries) := by omega
    simp [cliRetransmit, hq, hlt]
  have stepDel : ∀ (q : EventPacket), q.euuid = euuid →
      cliRetransmit
        { s with event_uuids :=
            (ainsert euuid ⟨s.cuuid, euuid, ed, ts, 4, pr⟩ s.event_uuids) }
        (.evRetry q) = (s, [], []) := by
    intro q hq
    have hgt : 4 + 1 > s.max_retries := by omega
    simp [cliRetransmit, hq, hgt, aerase_of_alookup_none hfresh]
  have chainLow : ∀ (n k : Nat) (q : EventPacket), q.euuid = euuid → k + n ≤ 4 →
      cliWakes
        { s with event_uuids :=
            (ainsert euuid ⟨s.cuuid, euuid, ed, ts, k, pr⟩ s.event_uuids) }
        (.evRetry q) n =
      ({ s with event_uuids :=
           (ainsert euuid ⟨s.cuuid, euuid, ed, ts, k + n, pr⟩ s.event_uuids) }, n) := by
    intro n
    induction n with
    | zero =>
      intro k q hq h
      simp [cliWakes]
    | succ n ih =>
      intro k q hq h
      have hk4 : k < 4 := by omega
      rw [cliWakes, step k q hq hk4]
      dsimp only
      rw [ih (k + 1) ⟨s.cuuid, euuid, ed, ts, k + 1, pr⟩ rfl (by omega)]
      have e1 : k + 1 + n = k + (n + 1) := by omega
      have e2 : 1 + n = n + 1 := by omega
      rw [e1]
      simp [e2]
  have chainHigh : ∀ (n k : Nat) (q : EventPacket), q.euuid = euuid →
      k + n ≥ 5 → k ≤ 4 →
      cliWakes
        { s with event_uuids :=
            (ainsert euuid ⟨s.cuuid, euuid, ed, ts, k, pr⟩ s.event_uuids) }
        (.evRetry q) n = (s, 4 - k) := by
    intro n
    induction n with
    | zero =>
      intro k q hq h5 h4
      exact ((by omega : False)).elim
    | succ n ih =>
      intro k q hq h5 h4
      by_cases hk : k = 4
      · subst hk
        rw [cliWakes, stepDel q hq]
        simp
      · have hk4 : k < 4 := by omega
        rw [cliWakes, step k q hq hk4]
        dsimp only
        rw [ih (k + 1) ⟨s.cuuid, euuid, ed, ts, k + 1, pr⟩ rfl (by omega) (by omega)]
        simp
        omega
  refine ⟨?_, ?_, ?_, ?_, ?_, ?_⟩
  · simp [cliEvent, hreg]
  · have h := chainLow 1 0 ⟨s.cuuid, euuid, ed, ts, 0, pr⟩ rfl (by omega)
    simpa using h
  · have h := chainLow 4 0 ⟨s.cuuid, euuid, ed, ts, 0, pr⟩ rfl (by omega)
    simpa using h
  · have h := chainHigh 5 0 ⟨s.cuuid, euuid, ed, ts, 0, pr⟩ rfl (by omega) (by omega)
    simpa using h
  · have h := chainHigh 6 0 ⟨s.cuuid, euuid, ed, ts, 0, pr⟩ rfl (by omega) (by omega)
    simpa using h
  · simp [cliRetransmit, hfresh]

theorem client_retry_exhaustion_witness :
    (csBase.max_retries = 4 ∧ csBase.registered = true ∧
     alookup "E3" csBase.event_uuids = none) ∧
    cliWakes
      { csBase with event_uuids :=
          (ainsert "E3" ⟨csBase.cuuid, "E3", .vnull, "T", 0, "normal"⟩
            csBase.event_uuids) }
      (.evRetry ⟨csBase.cuuid, "E3", .vnull, "T", 0, "normal"⟩) 5 = (csBase, 4) ∧
    cliRetransmit csBase
      (.evRetry ⟨csBase.cuuid, "E3", .vnull, "T", 0, "normal"⟩) = (csBase, [], []) :=
  ⟨⟨rfl, rfl, rfl⟩,
   (client_retry_exhaustion csBase "E3" "T" .vnull "normal" rfl rfl
     rfl).2.2.2.1,
   (client_retry_exhaustion csBase "E3" "T" .vnull "normal" rfl rfl
     rfl).2.2.2.2.2⟩
